import Mathlib

/-!
Verification of the campaign lifecycle UI of the advertising marketplace
frontend against its specification.

The development shallowly embeds the campaign-related React components:

* `components/campaigns/CampaignActions.tsx` (`campaignActions`)
* `components/campaigns/CampaignTimeline.tsx` (`timelineSteps`)
* `components/campaigns/CampaignCard.tsx` (`campaignProgress`, status badges)
* `components/campaigns/CampaignDetails.tsx` (status badges)
* the dialog forms (`RejectCampaignDialog`, `ConfirmCampaignDialog`,
  `SubmitPlacementDialog`, `CreateCampaignForm`) with their zod schemas
* the admin dispute resolution page (`app/(admin)/disputes/[id]/page.tsx`)

Conventions of the embedding:

* JavaScript numbers are modelled as rationals (`ℚ`); date values obtained
  from `new Date(...)` are modelled as their epoch timestamps (`ℤ`).
* Nullable / optional string fields are `Option String`; JavaScript
  truthiness of such a field (`!!x`, `x && ...`, `x || y`) is `jsTruthy`
  (`none` and `some ""` are falsy).
* A zod schema is a function returning `Except String data`: the first
  failing check, in schema order, yields its error message; refinements run
  after the base checks, as in zod.
* A `react-hook-form` submit handler only runs on data accepted by its
  resolver schema, so each dialog is embedded as a function from raw form
  data to `Option call`, where `call` records exactly the arguments passed
  to the API layer, and `none` means the API was not invoked.
* The lifecycle manager backend is not part of the repository; where a
  property depends on it, the operation is modelled from the spec and its
  doc comment says so.
-/

/-- The role of the logged-in user (`user_type_enum` in the SQL schema:
seller, channel_owner, admin). -/
inductive UserType where
  | seller
  | channel_owner
  | admin
deriving DecidableEq, Repr

/-- The campaign record as consumed by the components
(`Campaign` in `lib/types`).  `status` is kept as a raw string because the
components treat it as one (`CampaignCard` has an explicit fallback for
unknown status strings).  `start_date` and `end_date` are modelled as the
epoch timestamps of the corresponding date strings (the components only use
them through `new Date(...)`). -/
structure Campaign where
  id : String
  status : String
  budget : ℚ
  platform_commission_percent : ℚ
  start_date : ℤ
  end_date : ℤ
  owner_submitted_at : Option String
  seller_confirmed_at : Option String
  actual_completion_date : Option String
  placement_proof_url : Option String
  placement_proof_type : Option String
  created_at : String
  updated_at : String
deriving DecidableEq, Repr

/-- JavaScript truthiness of a nullable string field: `undefined`/`null`
and the empty string are falsy. -/
def jsTruthy : Option String → Bool
  | none => false
  | some s => s != ""

/-- The transition actions that `CampaignActions.tsx` can offer for a
campaign: the Accept / Reject / Submit Placement buttons for the channel
owner, and the Cancel Campaign / Review & Confirm buttons for the seller. -/
inductive CampaignAction where
  | accept
  | reject
  | submitPlacementAction
  | cancelCampaignAction
  | reviewConfirm
deriving DecidableEq, Repr

/-- `CampaignActions` (components/campaigns/CampaignActions.tsx, lines
24-128): the list of transition buttons rendered for a given campaign and
user type, following the early-return structure of the component.  An empty
list is the final `return null` (no available actions). -/
def campaignActions (c : Campaign) (userType : UserType) : List CampaignAction :=
  if userType = UserType.channel_owner then
    if c.status = "pending" then
      [CampaignAction.accept, CampaignAction.reject]
    else if c.status = "accepted" then
      [CampaignAction.submitPlacementAction]
    else []
  else if userType = UserType.seller then
    if c.status = "pending" then
      [CampaignAction.cancelCampaignAction]
    else if c.status = "in_progress" ∧ jsTruthy c.owner_submitted_at then
      [CampaignAction.reviewConfirm]
    else []
  else []

/-- `ConfirmCampaignDialog` (part of ConfirmCampaignDialog.tsx, line 103):
`const commission = campaign.budget * (campaign.platform_commission_percent / 100)`. -/
def commission (c : Campaign) : ℚ :=
  c.budget * (c.platform_commission_percent / 100)

/-- `ConfirmCampaignDialog` (line 104):
`const paymentAmount = campaign.budget - commission`. -/
def paymentAmount (c : Campaign) : ℚ :=
  c.budget - commission c

/-- The end-to-end scenario campaign of spec section 8: budget 10000 with a
10 percent platform commission. -/
def scenarioCampaign : Campaign where
  id := "campaign-scenario"
  status := "in_progress"
  budget := 10000
  platform_commission_percent := 10
  start_date := 0
  end_date := 86400000
  owner_submitted_at := some "2026-01-02T00:00:00Z"
  seller_confirmed_at := none
  actual_completion_date := none
  placement_proof_url := some "https://x"
  placement_proof_type := some "screenshot"
  created_at := "2026-01-01T00:00:00Z"
  updated_at := "2026-01-02T00:00:00Z"

/-- `CampaignCard` (components/campaigns/CampaignCard.tsx, lines 37-42): the
time-based progress bar value.  `totalDuration` is
`endDate.getTime() - startDate.getTime()`, `elapsed` is
`now.getTime() - startDate.getTime()`, and the percentage is clamped with
`Math.max(0, Math.min(100, (elapsed / totalDuration) * 100))`. -/
def campaignProgress (c : Campaign) (now : ℤ) : ℚ :=
  let totalDuration : ℚ := ((c.end_date - c.start_date : ℤ) : ℚ)
  let elapsed : ℚ := ((now - c.start_date : ℤ) : ℚ)
  max 0 (min 100 (elapsed / totalDuration * 100))

/-- The label and visual variant of a status badge
(`statusConfig` entries in CampaignCard.tsx and CampaignDetails.tsx). -/
structure StatusBadge where
  label : String
  variant : String
deriving DecidableEq, Repr

/-- `statusConfig` of `CampaignCard` (CampaignCard.tsx, lines 23-31): the
badge table for the seven known campaign statuses. -/
def campaignCardStatusConfig : List (String × StatusBadge) :=
  [("pending", { label := "Pending", variant := "outline" }),
   ("accepted", { label := "Accepted", variant := "default" }),
   ("rejected", { label := "Rejected", variant := "destructive" }),
   ("in_progress", { label := "In Progress", variant := "default" }),
   ("completed", { label := "Completed", variant := "default" }),
   ("disputed", { label := "Disputed", variant := "destructive" }),
   ("cancelled", { label := "Cancelled", variant := "outline" })]

/-- `CampaignCard` (line 34):
`const statusInfo = statusConfig[campaign.status] || statusConfig.pending`,
falling back to the pending badge when the status string is unknown. -/
def campaignCardStatusInfo (status : String) : StatusBadge :=
  match campaignCardStatusConfig.lookup status with
  | some info => info
  | none => { label := "Pending", variant := "outline" }

/-- `statusConfig` of `CampaignDetails` (CampaignDetails.tsx, lines 23-31),
textually identical to the `CampaignCard` table. -/
def campaignDetailsStatusConfig : List (String × StatusBadge) :=
  [("pending", { label := "Pending", variant := "outline" }),
   ("accepted", { label := "Accepted", variant := "default" }),
   ("rejected", { label := "Rejected", variant := "destructive" }),
   ("in_progress", { label := "In Progress", variant := "default" }),
   ("completed", { label := "Completed", variant := "default" }),
   ("disputed", { label := "Disputed", variant := "destructive" }),
   ("cancelled", { label := "Cancelled", variant := "outline" })]

/-- `CampaignDetails` (line 34): the same fallback lookup as in
`CampaignCard`. -/
def campaignDetailsStatusInfo (status : String) : StatusBadge :=
  match campaignDetailsStatusConfig.lookup status with
  | some info => info
  | none => { label := "Pending", variant := "outline" }

/-- One entry of the `CampaignTimeline` step list (`TimelineStep` in
CampaignTimeline.tsx, lines 22-29).  The `icon` React node is not
modelled. -/
structure TimelineStep where
  id : String
  label : String
  date : Option String
  completed : Bool
  current : Bool
deriving DecidableEq, Repr, Inhabited

/-- JavaScript `a || b` on two nullable strings: the first operand when it
is truthy, otherwise the second. -/
def jsOrElse (a b : Option String) : Option String :=
  if jsTruthy a then a else b

/-- The initial `steps` array of `CampaignTimeline`
(CampaignTimeline.tsx, lines 32-75), before the rejected/cancelled
override. -/
def campaignTimelineBaseSteps (c : Campaign) : List TimelineStep :=
  [{ id := "created",
     label := "Created",
     date := some c.created_at,
     completed := true,
     current := c.status == "pending" },
   { id := "accepted",
     label := "Accepted",
     date := if c.status = "accepted" ∨ c.status = "in_progress" ∨
                c.status = "completed"
             then some c.updated_at else none,
     completed := decide (c.status ∈ ["accepted", "in_progress", "completed"]),
     current := c.status == "accepted" },
   { id := "submitted",
     label := "Placement Submitted",
     date := c.owner_submitted_at,
     completed := jsTruthy c.owner_submitted_at,
     current := (c.status == "in_progress") && jsTruthy c.owner_submitted_at },
   { id := "confirmed",
     label := "Confirmed by Seller",
     date := c.seller_confirmed_at,
     completed := jsTruthy c.seller_confirmed_at,
     current := (c.status == "completed") && jsTruthy c.seller_confirmed_at },
   { id := "completed",
     label := "Completed",
     date := jsOrElse c.actual_completion_date c.seller_confirmed_at,
     completed := c.status == "completed",
     current := c.status == "completed" }]

/-- The `steps[1]` override of `CampaignTimeline`
(lines 78-86): when the campaign is rejected or cancelled, the second step
is replaced by a spread of itself with a Rejected/Cancelled label,
`completed: true` and `current: false`. -/
def campaignTimelineSteps (c : Campaign) : List TimelineStep :=
  let steps := campaignTimelineBaseSteps c
  if c.status = "rejected" ∨ c.status = "cancelled" then
    steps.set 1
      { (steps.getD 1 default) with
        label := if c.status = "rejected" then "Rejected" else "Cancelled",
        completed := true,
        current := false }
  else steps

/-- The second timeline step (index 1), built from the accepted step and
possibly overridden for rejected/cancelled campaigns. -/
def timelineSecondStep (c : Campaign) : TimelineStep :=
  (campaignTimelineSteps c).getD 1 default

/-- `rejectSchema` (RejectCampaignDialog.tsx, lines 35-37):
`reason: z.string().min(10, ...).max(500, ...)`.  Returns the validated
reason or the message of the first failing check. -/
def rejectSchemaParse (reason : String) : Except String String :=
  if reason.length < 10 then
    Except.error "Reason must be at least 10 characters"
  else if reason.length > 500 then
    Except.error "Reason must be less than 500 characters"
  else
    Except.ok reason

/-- The arguments of a `campaignsApi.rejectCampaign(campaignId, reason)`
call. -/
structure RejectCampaignCall where
  campaignId : String
  reason : String
deriving DecidableEq, Repr

/-- `RejectCampaignDialog` submission (RejectCampaignDialog.tsx, lines
63-78): `handleSubmit` invokes `onSubmit`, and therefore
`campaignsApi.rejectCampaign(campaignId, data.reason)`, only on data
accepted by `rejectSchema`.  `none` means the API was not called. -/
def rejectDialogSubmit (campaignId reason : String) :
    Option RejectCampaignCall :=
  match rejectSchemaParse reason with
  | Except.ok r => some { campaignId := campaignId, reason := r }
  | Except.error _ => none

/-- The raw data of the `ConfirmCampaignDialog` form
(`ConfirmFormData` in ConfirmCampaignDialog.tsx): the confirm/dispute radio
choice and the optional dispute reason text. -/
structure ConfirmFormData where
  confirmed : Bool
  reason : Option String
deriving DecidableEq, Repr

/-- The `.refine` step of `confirmSchema` (ConfirmCampaignDialog.tsx, lines
42-50): when `confirmed` is false the reason must be truthy and at least 10
characters, otherwise the refinement reports
"Please provide a reason for disputing". -/
def confirmSchemaRefine (d : ConfirmFormData) : Except String ConfirmFormData :=
  if d.confirmed then
    Except.ok d
  else
    match d.reason with
    | some r =>
        if r != "" ∧ 10 ≤ r.length then Except.ok d
        else Except.error "Please provide a reason for disputing"
    | none => Except.error "Please provide a reason for disputing"

/-- `confirmSchema` (ConfirmCampaignDialog.tsx, lines 39-50):
`confirmed: z.boolean()`, `reason: z.string().min(10, ...).optional()`,
then the dispute-reason refinement.  As in zod, the refinement only runs
when the base checks pass. -/
def confirmSchemaParse (d : ConfirmFormData) : Except String ConfirmFormData :=
  match d.reason with
  | some r =>
      if r.length < 10 then
        Except.error "Reason must be at least 10 characters"
      else confirmSchemaRefine d
  | none => confirmSchemaRefine d

/-- The arguments of a `campaignsApi.confirmCampaign` call as issued by
`ConfirmCampaignDialog.onSubmit` (ConfirmCampaignDialog.tsx, line 83):
`campaignsApi.confirmCampaign(campaign.id, data.confirmed)` — the campaign
id and the confirmed flag are the only arguments passed. -/
structure ConfirmCampaignCall where
  campaignId : String
  confirmed : Bool
deriving DecidableEq, Repr

/-- `ConfirmCampaignDialog` submission (ConfirmCampaignDialog.tsx, lines
79-100): `onSubmit` runs only on data accepted by `confirmSchema` and calls
`campaignsApi.confirmCampaign(campaign.id, data.confirmed)`. -/
def confirmDialogSubmit (c : Campaign) (d : ConfirmFormData) :
    Option ConfirmCampaignCall :=
  match confirmSchemaParse d with
  | Except.ok data => some { campaignId := c.id, confirmed := data.confirmed }
  | Except.error _ => none

/-- A dispute submission of the `ConfirmCampaignDialog` with a validated
29-character reason. -/
def disputeFormData : ConfirmFormData where
  confirmed := false
  reason := some "The ad was never published at all"

/-- Splits a character list at the first occurrence of "://", returning
the scheme part and the remainder. -/
def splitScheme : List Char → Option (List Char × List Char)
  | [] => none
  | ':' :: '/' :: '/' :: rest => some ([], rest)
  | c :: rest =>
      match splitScheme rest with
      | some (scheme, tail) => some (c :: scheme, tail)
      | none => none

/-- Well-formedness of a URL as accepted by `new URL(...)` (the check
behind `z.string().url()`), modelled shallowly: a nonempty alphabetic
scheme, the literal "://", and a nonempty remainder.  The model is what the
development uses for every `.url()` zod check; in particular the empty
string is not well-formed. -/
def isWellFormedUrl (s : String) : Bool :=
  match splitScheme s.data with
  | some (scheme, rest) =>
      (!scheme.isEmpty) && scheme.all Char.isAlpha && (!rest.isEmpty)
  | none => false

/-- The placement proof type enum of `submitSchema`
(SubmitPlacementDialog.tsx, line 278):
`z.enum([screenshot, post_link, other])`.  The constructor names
avoid the underscore spelling of the source; `proofTypeString` maps each
constructor back to its source string. -/
inductive ProofType where
  | screenshot
  | postLink
  | other
deriving DecidableEq, Repr

/-- The source string of each placement proof type
(`screenshot | post_link | other`). -/
def proofTypeString : ProofType → String
  | ProofType.screenshot => "screenshot"
  | ProofType.postLink => "post_link"
  | ProofType.other => "other"

/-- Parsing a raw string against
`z.enum([screenshot, post_link, other])`. -/
def parseProofType (s : String) : Option ProofType :=
  if s = "screenshot" then some ProofType.screenshot
  else if s = "post_link" then some ProofType.postLink
  else if s = "other" then some ProofType.other
  else none

/-- The raw data of the `SubmitPlacementDialog` form
(`SubmitFormData` in SubmitPlacementDialog.tsx). -/
structure SubmitFormData where
  placement_proof_url : String
  placement_proof_type : String
  owner_notes : Option String
deriving DecidableEq, Repr

/-- `submitSchema` (SubmitPlacementDialog.tsx, lines 276-280):
`placement_proof_url: z.string().url("Invalid URL").min(1, "Proof URL is required")`,
`placement_proof_type: z.enum([screenshot, post_link, other])`,
`owner_notes: z.string().max(500, ...).optional()`.  Checks run in schema
order; the `.url()` check precedes `.min(1)`, so an empty URL already fails
with "Invalid URL". -/
def submitSchemaParse (d : SubmitFormData) :
    Except String (String × ProofType × Option String) :=
  if ¬ isWellFormedUrl d.placement_proof_url then
    Except.error "Invalid URL"
  else if d.placement_proof_url.length < 1 then
    Except.error "Proof URL is required"
  else
    match parseProofType d.placement_proof_type with
    | none => Except.error "Invalid enum value"
    | some t =>
        match d.owner_notes with
        | some n =>
            if n.length > 500 then
              Except.error "Notes must be less than 500 characters"
            else Except.ok (d.placement_proof_url, t, d.owner_notes)
        | none => Except.ok (d.placement_proof_url, t, d.owner_notes)

/-- The error taxonomy of the lifecycle manager (spec section 7). -/
inductive LifecycleError where
  | invalidTransition
  | unauthorized
  | validationFailed
  | conflict
  | notFound
deriving DecidableEq, Repr

/-- Modelled from the spec: the lifecycle manager operation
`submitPlacement(campaignId, proofUrl, proofType, ownerNotes?)`.  The
backend implementing it is not part of the repository (the frontend only
calls `campaignsApi.submitCampaign`), so this follows the spec text:
`submitPlacement` fails with a `ValidationError` when `proofUrl` is empty;
the transition `accepted → in_progress` requires the current status to be
`accepted`, records the proof and sets `owner_submitted_at`; any further
call (the campaign now being `in_progress`) fails with `InvalidTransition`
and overwrites nothing. -/
def submitPlacement (c : Campaign) (proofUrl : String) (proofType : ProofType)
    (now : String) : Except LifecycleError Campaign :=
  if proofUrl = "" then
    Except.error LifecycleError.validationFailed
  else if c.status ≠ "accepted" then
    Except.error LifecycleError.invalidTransition
  else
    Except.ok { c with
      status := "in_progress",
      placement_proof_url := some proofUrl,
      placement_proof_type := some (proofTypeString proofType),
      owner_submitted_at := some now }

/-- The ad format enum of `createCampaignSchema`
(CreateCampaignForm.tsx, line 46):
`z.enum([post, story, video, integration])`. -/
inductive AdFormat where
  | post
  | story
  | video
  | integration
deriving DecidableEq, Repr

/-- The raw data of the `CreateCampaignForm`
(`CreateCampaignFormData` in CreateCampaignForm.tsx).  `start_date` and
`end_date` are modelled as the epoch timestamps that `new Date(...)`
produces from the date strings of the form (the refinement compares the
dates only through `new Date`); the `ad_format` field is already the
parsed enum. -/
structure CreateCampaignInput where
  channel_id : String
  budget : ℚ
  start_date : ℤ
  end_date : ℤ
  ad_format : AdFormat
  creative_text : String
  creative_images : List String
  creative_video_url : Option String
deriving DecidableEq, Repr

/-- The base (per-field) checks of `createCampaignSchema`
(CreateCampaignForm.tsx, lines 41-49), in field order:
`channel_id: z.string().min(1, "Please select a channel")`,
`budget: z.number().min(1, "Budget must be at least 1 RUB")`,
`creative_text: z.string().min(10, ...).max(2000)`,
`creative_images: z.array(z.string().url()).optional()`,
`creative_video_url: z.string().url().optional().or(z.literal(""))`. -/
def createCampaignBaseCheck (d : CreateCampaignInput) :
    Except String CreateCampaignInput :=
  if d.channel_id.length < 1 then
    Except.error "Please select a channel"
  else if d.budget < 1 then
    Except.error "Budget must be at least 1 RUB"
  else if d.creative_text.length < 10 then
    Except.error "Creative text must be at least 10 characters"
  else if d.creative_text.length > 2000 then
    Except.error "String must contain at most 2000 character(s)"
  else if ¬ d.creative_images.all isWellFormedUrl then
    Except.error "Invalid url"
  else
    match d.creative_video_url with
    | some v =>
        if v = "" ∨ isWellFormedUrl v then Except.ok d
        else Except.error "Invalid url"
    | none => Except.ok d

/-- `createCampaignSchema` (CreateCampaignForm.tsx, lines 41-57): the base
checks followed by the `.refine` comparing the dates,
`new Date(end_date) > new Date(start_date)`, whose failure message is
"End date must be after start date".  As in zod the refinement only runs
when the base checks pass. -/
def createCampaignValidate (d : CreateCampaignInput) :
    Except String CreateCampaignInput :=
  match createCampaignBaseCheck d with
  | Except.error e => Except.error e
  | Except.ok data =>
      if data.start_date < data.end_date then Except.ok data
      else Except.error "End date must be after start date"

/-- The payload of a `campaignsApi.createCampaign` call as issued by
`CreateCampaignForm.onSubmit` (CreateCampaignForm.tsx, lines 123-132):
`creative_images` becomes `undefined` when the list is empty and
`creative_video_url` becomes `undefined` when falsy. -/
structure CreateCampaignPayload where
  channel_id : String
  budget : ℚ
  start_date : ℤ
  end_date : ℤ
  ad_format : AdFormat
  creative_text : String
  creative_images : Option (List String)
  creative_video_url : Option String
deriving DecidableEq, Repr

/-- `hasEnoughBalance` (CreateCampaignForm.tsx, line 99):
`balance !== null && balance >= selectedBudget`. -/
def hasEnoughBalance (balance : Option ℚ) (budget : ℚ) : Bool :=
  match balance with
  | some b => decide (budget ≤ b)
  | none => false

/-- `CreateCampaignForm` submission (CreateCampaignForm.tsx, lines
114-142): `handleSubmit` runs `onSubmit` only on data accepted by
`createCampaignSchema`; `onSubmit` additionally returns early (without
calling the API) when the balance is insufficient, and otherwise calls
`campaignsApi.createCampaign` with the payload built from the data. -/
def createCampaignFormSubmit (balance : Option ℚ) (d : CreateCampaignInput) :
    Option CreateCampaignPayload :=
  match createCampaignValidate d with
  | Except.error _ => none
  | Except.ok data =>
      if hasEnoughBalance balance data.budget then
        some { channel_id := data.channel_id,
               budget := data.budget,
               start_date := data.start_date,
               end_date := data.end_date,
               ad_format := data.ad_format,
               creative_text := data.creative_text,
               creative_images :=
                 if data.creative_images.length > 0
                 then some data.creative_images else none,
               creative_video_url :=
                 if jsTruthy data.creative_video_url
                 then data.creative_video_url else none }
      else none

/-- The admin resolution decision, the union type of the `decision` state
of the dispute details page (disputes/[id]/page.tsx, line 32).  The
constructor names avoid the underscore spelling of the source;
`decisionString` maps each constructor to its source string
(refund | release_payment | partial_refund). -/
inductive DisputeDecision where
  | refund
  | releasePayment
  | partialRefund
deriving DecidableEq, Repr

/-- The source string of each resolution decision. -/
def decisionString : DisputeDecision → String
  | DisputeDecision.refund => "refund"
  | DisputeDecision.releasePayment => "release_payment"
  | DisputeDecision.partialRefund => "partial_refund"

/-- A dispute record as used by the dispute details page: its own id and
the id of the campaign it refers to are distinct fields
(`dispute.id` at line 53 versus `dispute.campaign_id` at line 45). -/
structure Dispute where
  id : String
  campaign_id : String
  status : String
  reason : String
deriving DecidableEq, Repr

/-- The React state of the dispute details page (disputes/[id]/page.tsx,
lines 32-35): the selected decision, the notes text, the refund amount
input (already parsed, as `handleResolve` applies `parseFloat`), and the
processing flag. -/
structure DisputePageState where
  decision : DisputeDecision
  notes : String
  refundAmount : ℚ
  isProcessing : Bool
deriving DecidableEq, Repr

/-- The payload of an `adminApi.resolveDispute` call as issued by
`handleResolve` (disputes/[id]/page.tsx, lines 53-57): the first argument
is `dispute.id`, and the body carries the decision, a `refund_amount` only
for a partial refund, and the notes. -/
structure ResolveDisputeCall where
  disputeId : String
  decision : DisputeDecision
  refund_amount : Option ℚ
  notes : String
deriving DecidableEq, Repr

/-- `handleResolve` (disputes/[id]/page.tsx, lines 47-68): the arguments
passed to `adminApi.resolveDispute(dispute.id, {...})`. -/
def handleResolve (d : Dispute) (st : DisputePageState) : ResolveDisputeCall :=
  { disputeId := d.id,
    decision := st.decision,
    refund_amount :=
      if st.decision = DisputeDecision.partialRefund
      then some st.refundAmount else none,
    notes := st.notes }

/-- JavaScript `String.prototype.trim()`: whitespace stripped from both
ends, modelled over the character list (the core `String.trim` is not
kernel-reducible). -/
def jsTrim (s : String) : String :=
  String.mk
    (((s.data.dropWhile Char.isWhitespace).reverse.dropWhile
        Char.isWhitespace).reverse)

/-- The Resolve button (disputes/[id]/page.tsx, lines 214-219) is disabled
while processing or while the trimmed notes are empty
(`disabled={isProcessing || !notes.trim()}`). -/
def resolveButtonEnabled (st : DisputePageState) : Bool :=
  !st.isProcessing && (jsTrim st.notes != "")

/-- The dispute page only invokes `handleResolve` through the Resolve
button, which fires only while enabled: `none` means `resolveDispute` was
not called. -/
def disputePageResolve (d : Dispute) (st : DisputePageState) :
    Option ResolveDisputeCall :=
  if resolveButtonEnabled st then some (handleResolve d st) else none

/-- A concrete dispute whose own id differs from the id of the campaign it
refers to. -/
def exampleDispute : Dispute where
  id := "dispute-17"
  campaign_id := "campaign-scenario"
  status := "open"
  reason := "The ad was never published at all"

/-- A concrete page state with the full-refund decision and non-blank
notes, ready to resolve. -/
def exampleResolveState : DisputePageState where
  decision := DisputeDecision.refund
  notes := "Verified: the placement was missing."
  refundAmount := 0
  isProcessing := false

/-- C2: `CampaignActions` offers exactly the transitions of the transition
table: Accept and Reject only to a channel owner on a pending campaign,
Submit Placement only to a channel owner on an accepted campaign, Cancel
only to a seller on a pending campaign, Review & Confirm only to a seller
on an in_progress campaign with `owner_submitted_at` set, and nothing to an
admin. -/
theorem campaignActions_matches_transition_table (c : Campaign) (u : UserType) :
    (CampaignAction.accept ∈ campaignActions c u ↔
      u = UserType.channel_owner ∧ c.status = "pending") ∧
    (CampaignAction.reject ∈ campaignActions c u ↔
      u = UserType.channel_owner ∧ c.status = "pending") ∧
    (CampaignAction.submitPlacementAction ∈ campaignActions c u ↔
      u = UserType.channel_owner ∧ c.status = "accepted") ∧
    (CampaignAction.cancelCampaignAction ∈ campaignActions c u ↔
      u = UserType.seller ∧ c.status = "pending") ∧
    (CampaignAction.reviewConfirm ∈ campaignActions c u ↔
      u = UserType.seller ∧ c.status = "in_progress" ∧
        jsTruthy c.owner_submitted_at = true) ∧
    campaignActions c UserType.admin = [] := by
  unfold campaignActions
  rcases u <;>
    by_cases h1 : c.status = "pending" <;>
      by_cases h2 : c.status = "accepted" <;>
        by_cases h3 : c.status = "in_progress" <;>
          by_cases h4 : jsTruthy c.owner_submitted_at = true <;>
            simp_all

/-- C5: the payment shown and released to the channel owner equals
`budget * (1 - commission_percent / 100)`, the platform commission equals
`budget * commission_percent / 100`, the two sum exactly to the budget, and
the spec scenario (budget 10000, commission 10 percent) yields 9000 to the
channel owner and 1000 to the platform. -/
theorem paymentAmount_commission_split (c : Campaign) :
    paymentAmount c = c.budget * (1 - c.platform_commission_percent / 100) ∧
    commission c = c.budget * (c.platform_commission_percent / 100) ∧
    paymentAmount c + commission c = c.budget ∧
    paymentAmount scenarioCampaign = 9000 ∧
    commission scenarioCampaign = 1000 := by
  refine ⟨?_, rfl, ?_, ?_, ?_⟩
  · unfold paymentAmount commission; ring
  · unfold paymentAmount; ring
  · unfold paymentAmount commission scenarioCampaign; norm_num
  · unfold commission scenarioCampaign; norm_num

/-- C9: for a campaign whose end date is strictly after its start date, the
progress percentage computed by `CampaignCard` lies in [0, 100] for every
current time, thanks to the `Math.max(0, Math.min(100, ...))` clamp.  (When
the two dates coincide the source divides by zero, producing NaN or
Infinity in JavaScript, which the rational embedding cannot express; the
bound is therefore only asserted under the strict-ordering precondition.) -/
theorem campaignProgress_bounded (c : Campaign) (now : ℤ)
    (_h : c.start_date < c.end_date) :
    0 ≤ campaignProgress c now ∧ campaignProgress c now ≤ 100 := by
  unfold campaignProgress
  constructor
  · exact le_max_left 0 _
  · exact max_le (by norm_num) (min_le_left 100 _)

/-- Concrete instance of `campaignProgress_bounded`: the scenario campaign
runs from timestamp 0 to 86400000, and at time 3600000 the progress is
within [0, 100]. -/
theorem campaignProgress_bounded_witness :
    scenarioCampaign.start_date < scenarioCampaign.end_date ∧
    (0 ≤ campaignProgress scenarioCampaign 3600000 ∧
      campaignProgress scenarioCampaign 3600000 ≤ 100) :=
  ⟨by decide, campaignProgress_bounded scenarioCampaign 3600000 (by decide)⟩

/-- C10: for any status string outside the seven known campaign statuses,
both `CampaignCard` and `CampaignDetails` render the Pending badge instead
of failing. -/
theorem unknown_status_falls_back_to_pending (s : String)
    (h : s ∉ ["pending", "accepted", "rejected", "in_progress",
              "completed", "disputed", "cancelled"]) :
    campaignCardStatusInfo s = { label := "Pending", variant := "outline" } ∧
    campaignDetailsStatusInfo s = { label := "Pending", variant := "outline" } := by
  simp only [List.mem_cons, List.not_mem_nil, or_false, not_or] at h
  obtain ⟨h1, h2, h3, h4, h5, h6, h7⟩ := h
  constructor <;>
    simp [campaignCardStatusInfo, campaignDetailsStatusInfo,
      campaignCardStatusConfig, campaignDetailsStatusConfig, List.lookup,
      beq_eq_false_iff_ne.mpr h1, beq_eq_false_iff_ne.mpr h2,
      beq_eq_false_iff_ne.mpr h3, beq_eq_false_iff_ne.mpr h4,
      beq_eq_false_iff_ne.mpr h5, beq_eq_false_iff_ne.mpr h6,
      beq_eq_false_iff_ne.mpr h7]

/-- Concrete instance of `unknown_status_falls_back_to_pending`: the status
string "archived" is not a known status, and both components render the
Pending badge for it. -/
theorem unknown_status_falls_back_to_pending_witness :
    "archived" ∉ ["pending", "accepted", "rejected", "in_progress",
                  "completed", "disputed", "cancelled"] ∧
    campaignCardStatusInfo "archived" =
      { label := "Pending", variant := "outline" } ∧
    campaignDetailsStatusInfo "archived" =
      { label := "Pending", variant := "outline" } :=
  ⟨by decide, unknown_status_falls_back_to_pending "archived" (by decide)⟩

/-- C8: a disputed campaign does not get its Accepted timeline step marked
completed: whenever the second step still carries the label "Accepted"
(it is relabelled only for rejected and cancelled campaigns), its completed
flag holds exactly when the status is accepted, in_progress or completed;
in particular it is false for a disputed campaign, which has necessarily
passed through the accepted state. -/
theorem timeline_accepted_step_not_completed_when_disputed (c : Campaign) :
    (c.status = "disputed" →
      (timelineSecondStep c).label = "Accepted" ∧
      (timelineSecondStep c).completed = false) ∧
    ((timelineSecondStep c).label = "Accepted" →
      ((timelineSecondStep c).completed = true ↔
        c.status = "accepted" ∨ c.status = "in_progress" ∨
        c.status = "completed")) := by
  unfold timelineSecondStep campaignTimelineSteps campaignTimelineBaseSteps
  by_cases hr : c.status = "rejected" ∨ c.status = "cancelled"
  · rcases hr with hr | hr <;> simp [hr]
  · simp [hr]
    intro hd
    simp [hd]

/-- Concrete instance of
`timeline_accepted_step_not_completed_when_disputed`: for the scenario
campaign moved to the disputed status, the Accepted step is rendered but
not marked completed. -/
theorem timeline_accepted_step_witness :
    (timelineSecondStep { scenarioCampaign with status := "disputed" }).label
        = "Accepted" ∧
    (timelineSecondStep { scenarioCampaign with status := "disputed" }).completed
        = false :=
  (timeline_accepted_step_not_completed_when_disputed
    { scenarioCampaign with status := "disputed" }).1 rfl

/-- C3: `rejectCampaign` is invoked only with a reason of length between 10
and 500 characters, passed through unchanged; a submission whose reason is
shorter than 10 characters fails validation with the reason-too-short
message and the API is not called. -/
theorem rejectCampaign_reason_validated (campaignId reason : String) :
    (∀ call, rejectDialogSubmit campaignId reason = some call →
      10 ≤ call.reason.length ∧ call.reason.length ≤ 500 ∧
      call.reason = reason ∧ call.campaignId = campaignId) ∧
    (reason.length < 10 →
      rejectSchemaParse reason =
        Except.error "Reason must be at least 10 characters" ∧
      rejectDialogSubmit campaignId reason = none) := by
  unfold rejectDialogSubmit rejectSchemaParse
  constructor
  · intro call hcall
    by_cases h10 : reason.length < 10
    · simp [h10] at hcall
    · by_cases h500 : reason.length > 500
      · simp [h10, h500] at hcall
      · simp [h10, h500] at hcall
        subst hcall
        refine ⟨?_, ?_, rfl, rfl⟩ <;> simp <;> omega
  · intro h10
    simp [h10]

/-- Concrete instance of `rejectCampaign_reason_validated`: the reason
"too short" has fewer than 10 characters, validation reports the
reason-too-short message, and `rejectCampaign` is not invoked. -/
theorem rejectCampaign_reason_validated_witness :
    ("too short".length < 10) ∧
    rejectSchemaParse "too short" =
      Except.error "Reason must be at least 10 characters" ∧
    rejectDialogSubmit "campaign-1" "too short" = none :=
  ⟨by decide,
   (rejectCampaign_reason_validated "campaign-1" "too short").2 (by decide)⟩

/-- C1 (code bug): the dispute branch of `ConfirmCampaignDialog` does
validate that the reason has at least 10 characters, but `onSubmit` then
calls `campaignsApi.confirmCampaign(campaign.id, data.confirmed)` without
the reason: the validated reason never reaches the API call.  At the
concrete dispute submission below the schema accepts the data, yet the
emitted call consists of the campaign id and the confirmed flag only, and
is identical to the call emitted for a submission with a completely
different reason. -/
theorem confirmCampaign_drops_dispute_reason :
    confirmSchemaParse disputeFormData = Except.ok disputeFormData ∧
    confirmDialogSubmit scenarioCampaign disputeFormData =
      some { campaignId := "campaign-scenario", confirmed := false } ∧
    confirmDialogSubmit scenarioCampaign disputeFormData =
      confirmDialogSubmit scenarioCampaign
        { confirmed := false,
          reason := some "A wholly different complaint text" } := by
  exact ⟨rfl, rfl, rfl⟩

/-- C4: the placement submission flow.  The form schema rejects any proof
URL that is not well formed (so in particular the empty URL) with the
"Invalid URL" message, and only accepts a proof type drawn from
{screenshot, post_link, other}; the spec-modelled `submitPlacement`
operation rejects an empty proof URL with a validation error, succeeds on
an `accepted` campaign setting `owner_submitted_at` and the proof fields,
and a second submission after that success fails with `InvalidTransition`,
leaving the recorded proof and timestamp unchanged. -/
theorem submitPlacement_validation_and_idempotence
    (d : SubmitFormData) (c : Campaign) (url now : String) (t : ProofType) :
    (isWellFormedUrl "" = false) ∧
    (isWellFormedUrl d.placement_proof_url = false →
      submitSchemaParse d = Except.error "Invalid URL") ∧
    (∀ out, submitSchemaParse d = Except.ok out →
      d.placement_proof_type ∈ ["screenshot", "post_link", "other"]) ∧
    (submitPlacement c "" t now =
      Except.error LifecycleError.validationFailed) ∧
    (c.status = "accepted" → url ≠ "" →
      ∃ c', submitPlacement c url t now = Except.ok c' ∧
        c'.owner_submitted_at = some now ∧
        c'.placement_proof_url = some url ∧
        c'.status = "in_progress" ∧
        (∀ url2 t2 now2, url2 ≠ "" →
          submitPlacement c' url2 t2 now2 =
            Except.error LifecycleError.invalidTransition)) := by
  refine ⟨rfl, ?_, ?_, ?_, ?_⟩
  · intro hurl
    unfold submitSchemaParse
    simp [hurl]
  · intro out hout
    unfold submitSchemaParse at hout
    by_cases hurl : isWellFormedUrl d.placement_proof_url
    · by_cases hlen : d.placement_proof_url.length < 1
      · simp [hurl, hlen] at hout
      · rcases ht : parseProofType d.placement_proof_type with _ | t0
        · simp [hurl, hlen, ht] at hout
        · unfold parseProofType at ht
          by_cases h1 : d.placement_proof_type = "screenshot"
          · simp [h1]
          · by_cases h2 : d.placement_proof_type = "post_link"
            · simp [h2]
            · by_cases h3 : d.placement_proof_type = "other"
              · simp [h3]
              · simp [h1, h2, h3] at ht
    · simp [hurl] at hout
  · unfold submitPlacement
    simp
  · intro hstatus hurl
    refine ⟨{ c with
      status := "in_progress",
      placement_proof_url := some url,
      placement_proof_type := some (proofTypeString t),
      owner_submitted_at := some now }, ?_, rfl, rfl, rfl, ?_⟩
    · unfold submitPlacement
      simp [hurl, hstatus]
    · intro url2 t2 now2 hurl2
      unfold submitPlacement
      simp [hurl2]

/-- Concrete instance of `submitPlacement_validation_and_idempotence`: an
empty proof URL fails the form validation with "Invalid URL"; submitting
"https://example.com/proof.png" on an accepted campaign succeeds and sets
`owner_submitted_at`, and resubmitting afterwards fails with
`InvalidTransition`. -/
theorem submitPlacement_witness :
    submitSchemaParse
      { placement_proof_url := "",
        placement_proof_type := "screenshot",
        owner_notes := none } = Except.error "Invalid URL" ∧
    ∃ c', submitPlacement { scenarioCampaign with status := "accepted" }
            "https://example.com/proof.png" ProofType.screenshot
            "2026-01-02T00:00:00Z" = Except.ok c' ∧
      c'.owner_submitted_at = some "2026-01-02T00:00:00Z" ∧
      c'.placement_proof_url = some "https://example.com/proof.png" ∧
      c'.status = "in_progress" ∧
      (∀ url2 t2 now2, url2 ≠ "" →
        submitPlacement c' url2 t2 now2 =
          Except.error LifecycleError.invalidTransition) := by
  obtain ⟨-, hempty, -, -, hrun⟩ :=
    submitPlacement_validation_and_idempotence
      { placement_proof_url := "",
        placement_proof_type := "screenshot",
        owner_notes := none }
      { scenarioCampaign with status := "accepted" }
      "https://example.com/proof.png" "2026-01-02T00:00:00Z"
      ProofType.screenshot
  obtain ⟨c', h1, h2, h3, h4, h5⟩ := hrun rfl (by decide)
  exact ⟨hempty rfl, c', h1, h2, h3, h4, h5⟩

/-- The base checks of `createCampaignSchema` pass the data through
unchanged. -/
theorem createCampaignBaseCheck_ok (d d2 : CreateCampaignInput)
    (h : createCampaignBaseCheck d = Except.ok d2) : d2 = d := by
  unfold createCampaignBaseCheck at h
  repeat' split at h
  all_goals simp_all

/-- C6: `createCampaign` is invoked only when the end date is strictly
after the start date; an attempt whose end date is not after its start
date emits no `createCampaign` call, and when every per-field check passes
its validation fails exactly with "End date must be after start date". -/
theorem createCampaign_requires_end_after_start
    (balance : Option ℚ) (d : CreateCampaignInput) :
    (∀ payload, createCampaignFormSubmit balance d = some payload →
      d.start_date < d.end_date) ∧
    (¬ d.start_date < d.end_date →
      createCampaignFormSubmit balance d = none ∧
      (∀ d2, createCampaignBaseCheck d = Except.ok d2 →
        createCampaignValidate d =
          Except.error "End date must be after start date")) := by
  constructor
  · intro payload hps
    unfold createCampaignFormSubmit createCampaignValidate at hps
    rcases hbase : createCampaignBaseCheck d with e | data
    · simp [hbase] at hps
    · have hdd : data = d := createCampaignBaseCheck_ok d data hbase
      subst hdd
      by_cases hlt : data.start_date < data.end_date
      · exact hlt
      · simp [hbase, hlt] at hps
  · intro hge
    constructor
    · unfold createCampaignFormSubmit createCampaignValidate
      rcases hbase : createCampaignBaseCheck d with e | data
      · simp
      · have hdd : data = d := createCampaignBaseCheck_ok d data hbase
        subst hdd
        simp [hge]
    · intro d2 hbase
      unfold createCampaignValidate
      have hdd : d2 = d := createCampaignBaseCheck_ok d d2 hbase
      subst hdd
      simp [hbase, hge]

/-- Concrete instance of `createCampaign_requires_end_after_start`: a form
whose end date equals its start date passes every per-field check but
fails validation with "End date must be after start date", and no
`createCampaign` call is emitted. -/
theorem createCampaign_requires_end_after_start_witness :
    (¬ (100 : ℤ) < (100 : ℤ)) ∧
    createCampaignFormSubmit (some 50000)
      { channel_id := "channel-1",
        budget := 10000,
        start_date := 100,
        end_date := 100,
        ad_format := AdFormat.post,
        creative_text := "Buy our excellent product today",
        creative_images := [],
        creative_video_url := none } = none ∧
    createCampaignValidate
      { channel_id := "channel-1",
        budget := 10000,
        start_date := 100,
        end_date := 100,
        ad_format := AdFormat.post,
        creative_text := "Buy our excellent product today",
        creative_images := [],
        creative_video_url := none } =
      Except.error "End date must be after start date" := by
  obtain ⟨hnone, hmsg⟩ :=
    (createCampaign_requires_end_after_start (some 50000)
      { channel_id := "channel-1",
        budget := 10000,
        start_date := 100,
        end_date := 100,
        ad_format := AdFormat.post,
        creative_text := "Buy our excellent product today",
        creative_images := [],
        creative_video_url := none }).2 (by decide)
  exact ⟨by decide, hnone, hmsg _ rfl⟩

/-- C7, counterexample: `resolveDispute` is not keyed by the campaign
identifier.  At the concrete dispute below, the page emits a resolve call
whose key is the dispute id "dispute-17", which differs from the campaign
id "campaign-scenario" the dispute refers to. -/
theorem resolveDispute_not_keyed_by_campaign_id :
    disputePageResolve exampleDispute exampleResolveState =
      some { disputeId := "dispute-17",
             decision := DisputeDecision.refund,
             refund_amount := none,
             notes := "Verified: the placement was missing." } ∧
    exampleDispute.campaign_id = "campaign-scenario" ∧
    ("dispute-17" : String) ≠ "campaign-scenario" := by
  refine ⟨rfl, rfl, ?_⟩
  decide

/-- C7, amended: every `resolveDispute` invocation of the dispute page is
keyed by the dispute identifier, carries a decision from
{refund, release_payment, partial_refund}, supplies a refund amount exactly
when the decision is a partial refund, and happens only while the
resolution notes are non-empty (non-blank after trimming). -/
theorem resolveDispute_call_shape (d : Dispute) (st : DisputePageState) :
    ∀ call, disputePageResolve d st = some call →
      call.disputeId = d.id ∧
      decisionString call.decision ∈
        ["refund", "release_payment", "partial_refund"] ∧
      (call.refund_amount ≠ none ↔
        call.decision = DisputeDecision.partialRefund) ∧
      jsTrim call.notes ≠ "" ∧
      call.notes ≠ "" := by
  intro call hcall
  unfold disputePageResolve at hcall
  by_cases hen : resolveButtonEnabled st
  · simp [hen] at hcall
    subst hcall
    unfold handleResolve
    unfold resolveButtonEnabled at hen
    simp only [Bool.and_eq_true, Bool.not_eq_true', bne_iff_ne] at hen
    refine ⟨rfl, ?_, ?_, ?_, ?_⟩
    · rcases st.decision <;> simp [decisionString]
    · by_cases hd : st.decision = DisputeDecision.partialRefund <;> simp [hd]
    · exact hen.2
    · intro habs
      exact hen.2 (by rw [show st.notes = "" from habs]; rfl)
  · simp [hen] at hcall

/-- Concrete instance of `resolveDispute_call_shape`: the call emitted for
the example dispute is keyed by the dispute id, carries the full-refund
decision with no refund amount, and its notes are non-empty. -/
theorem resolveDispute_call_shape_witness :
    (disputePageResolve exampleDispute exampleResolveState =
      some (handleResolve exampleDispute exampleResolveState)) ∧
    ((handleResolve exampleDispute exampleResolveState).disputeId =
        exampleDispute.id ∧
      decisionString (handleResolve exampleDispute exampleResolveState).decision ∈
        ["refund", "release_payment", "partial_refund"] ∧
      ((handleResolve exampleDispute exampleResolveState).refund_amount ≠ none ↔
        (handleResolve exampleDispute exampleResolveState).decision =
          DisputeDecision.partialRefund) ∧
      jsTrim (handleResolve exampleDispute exampleResolveState).notes ≠ "" ∧
      (handleResolve exampleDispute exampleResolveState).notes ≠ "") :=
  ⟨rfl, resolveDispute_call_shape exampleDispute exampleResolveState
    (handleResolve exampleDispute exampleResolveState) rfl⟩

